import Mathlib

/-!
Verification development for the blockchain-voting facial-authentication
server (`facial_auth_server.py` and `auth_handlers.py`).

The Python code keeps two in-memory dictionaries keyed by
`get_voter_key(aadhar, voter_id)` (a SHA-256 hex digest): `voter_database`
(voter records) and `otp_storage` (OTP challenges).  Dictionaries are
modelled as insertion-ordered association lists; assignment to an existing
key replaces the record in place, matching Python dict semantics.

Floating-point values (timestamps, similarity thresholds, embedding
coordinates) are modelled as exact rationals; timestamps are seconds since
an arbitrary epoch, so the Python expression
`(datetime.now() - created_at).total_seconds()` becomes `now - created_at`.
The SHA-256 digest is an external primitive and is passed in as an
uninterpreted function `hash : String -> String -> String`.  The embedding
provider (`get_face_embedding`, a CNN or remote API) and the OpenCV face
extractor (`extract_face_from_image`) are likewise external capabilities
and appear as function parameters; the provider is deterministic, as the
CNN forward pass is.
-/

/-- An embedding vector: `np.array` of floats, modelled as rationals. -/
abbrev Embedding := List ℚ

/-- One entry of `otp_storage`: the dict
`{otp, created_at, verified}` written by `verify_credentials`. -/
structure OtpRecord where
  otp : String
  created_at : ℚ
  verified : Bool
deriving DecidableEq, Repr

/-- One entry of `voter_database`: the dict written by `register_voter`
(`aadhar` is stored already masked, `voter_id` in full). -/
structure VoterRecord where
  aadhar : String
  voter_id : String
  embedding : Embedding
  registration_time : ℚ
  image_path : Option String
deriving DecidableEq, Repr

/-- A Python dict keyed by strings: insertion-ordered association list. -/
abbrev Store (α : Type) := List (String × α)

abbrev OtpStore := Store OtpRecord
abbrev VoterDb := Store VoterRecord

/-- `d.get(k)`: first (and only) binding of `k`. -/
def storeFind {α : Type} : Store α → String → Option α
  | [], _ => none
  | (k', v) :: rest, k => if k' = k then some v else storeFind rest k

/-- `d[k] = v`: replace the binding in place if `k` is present
(Python dicts keep the original insertion position), else append. -/
def storeInsert {α : Type} : Store α → String → α → Store α
  | [], k, v => [(k, v)]
  | (k', v') :: rest, k, v =>
      if k' = k then (k, v) :: rest else (k', v') :: storeInsert rest k v

/-- `k in d`. -/
def storeContains {α : Type} (s : Store α) (k : String) : Bool :=
  (storeFind s k).isSome

/-! ## The similarity scorer (`compute_similarity`) -/

/-- `np.dot(e1, e2)`.  The provider always returns vectors of one fixed
length (128 for the CNN head), so the two lists have equal length; on
equal-length lists `zipWith` is exactly the dot product. -/
def dotProduct (e1 e2 : Embedding) : ℚ := (List.zipWith (· * ·) e1 e2).sum

/-- Square of `np.linalg.norm e`: the sum of the squared coordinates.
The norm itself is its real square root. -/
def normSq (e : Embedding) : ℚ := dotProduct e e

/-- An exact representation of the finite value
`dot / (sqrt nsq1 * sqrt nsq2)` produced by `compute_similarity`:
the rational numerator `dot` and the squared norms `nsq1`, `nsq2`. -/
structure CosScore where
  dot : ℚ
  nsq1 : ℚ
  nsq2 : ℚ
deriving DecidableEq, Repr

/-- Result of the float division in `compute_similarity`.  When
`norm1 * norm2` is zero the numerator `np.dot` is also zero (see
`dotProduct_eq_zero_of_normSq`), so IEEE evaluation of `0.0/0.0` yields
NaN; no exception is raised.  Otherwise the value is finite. -/
inductive SimValue where
  | nan
  | score (c : CosScore)
deriving DecidableEq, Repr

/-- `compute_similarity(embedding1, embedding2)` from
`facial_auth_server.py`: `np.dot(e1, e2) / (norm(e1) * norm(e2))`,
performed unconditionally.  The denominator `norm1 * norm2` is zero
exactly when `normSq e1 * normSq e2 = 0`, in which case the IEEE
division returns NaN; there is no degenerate-vector check anywhere in
the function. -/
def compute_similarity (e1 e2 : Embedding) : SimValue :=
  if normSq e1 * normSq e2 = 0 then SimValue.nan
  else SimValue.score ⟨dotProduct e1 e2, normSq e1, normSq e2⟩

/-- Exact decision procedure for `t <= dot / (sqrt a * sqrt b)` with
`a, b > 0`, by sign analysis and squaring; proved correct against the
real-valued cosine in `cosScore_ge_iff`. -/
def CosScore.ge (c : CosScore) (t : ℚ) : Bool :=
  if 0 ≤ c.dot then
    if t ≤ 0 then true else decide (t ^ 2 * c.nsq1 * c.nsq2 ≤ c.dot ^ 2)
  else
    if 0 ≤ t then false else decide (c.dot ^ 2 ≤ t ^ 2 * c.nsq1 * c.nsq2)

/-- The Python comparison `similarity >= threshold` on the float result
of `compute_similarity`: `nan >= t` is `False` in IEEE semantics, a
finite score compares exactly. -/
def simGE (s : SimValue) (t : ℚ) : Bool :=
  match s with
  | SimValue.nan => false
  | SimValue.score c => CosScore.ge c t

/-- The real value the float code computes:
`np.dot(e1,e2) / (np.linalg.norm(e1) * np.linalg.norm(e2))`. -/
noncomputable def cosineSim (e1 e2 : Embedding) : ℝ :=
  (dotProduct e1 e2 : ℝ) /
    (Real.sqrt (normSq e1 : ℚ) * Real.sqrt (normSq e2 : ℚ))

/-! ## The voter registry (`register_voter`, `list_voters`) -/

/-- The masking expression in `register_voter`:
`aadhar[:4] + "****" + aadhar[-4:]`.  `String.drop (length - 4)` agrees
with the Python slice `[-4:]` for every length, including strings
shorter than four characters. -/
def maskAadhar (aadhar : String) : String :=
  aadhar.take 4 ++ "****" ++ aadhar.drop (aadhar.length - 4)

/-- `register_voter(aadhar, voter_id, face_embedding, image_path)` from
`facial_auth_server.py`: unconditionally assigns
`voter_database[voter_key] = {...}` and returns the key.  There is no
presence check and no failure path. -/
def register_voter (hash : String → String → String) (db : VoterDb)
    (aadhar voter_id : String) (face_embedding : Embedding) (now : ℚ)
    (image_path : Option String) : String × VoterDb :=
  let voter_key := hash aadhar voter_id
  (voter_key,
    storeInsert db voter_key
      ⟨maskAadhar aadhar, voter_id, face_embedding, now, image_path⟩)

/-- One element of the `voters` array built by `list_voters`:
`{id: voter_key[:8] + "...", aadhar, voter_id, registered}`.  The dict
comprehension reads no other field of the stored record; in
particular the `embedding` key is never read. -/
structure VoterInfo where
  id : String
  aadhar : String
  voter_id : String
  registered : ℚ
deriving DecidableEq, Repr

/-- `GET /api/voters` (`list_voters` in `facial_auth_server.py`). -/
def list_voters (db : VoterDb) : List VoterInfo :=
  db.map (fun kv =>
    ⟨kv.1.take 8 ++ "...", kv.2.aadhar, kv.2.voter_id, kv.2.registration_time⟩)

/-- The projection of a registry state that `list_voters` can see:
key, stored (masked) aadhar, voter id and registration time.  Embeddings
and image paths are projected away. -/
def registryShape (db : VoterDb) : List (String × String × String × ℚ) :=
  db.map (fun kv => (kv.1, kv.2.aadhar, kv.2.voter_id, kv.2.registration_time))

/-- Registry states reachable through `register_voter` alone (the only
writer of `voter_database` in the source). -/
inductive BuiltByRegister (hash : String → String → String) : VoterDb → Prop where
  | nil : BuiltByRegister hash []
  | step (db : VoterDb) (a v : String) (e : Embedding) (t : ℚ)
      (p : Option String) : BuiltByRegister hash db →
      BuiltByRegister hash (register_voter hash db a v e t p).2

/-! ## Face verification (`verify_voter_by_face`, endpoints) -/

/-- The `details` dict returned by `verify_voter_by_face`, or the
`newly_registered` dict substituted by the `verify-voter` endpoints. -/
inductive VerifyDetails where
  | voterNotFound
  | matched (similarity : SimValue) (voter_id : String)
  | unmatched (similarity : SimValue) (threshold : ℚ)
  | newlyRegistered (similarity : ℚ) (voter_id : String)
deriving DecidableEq, Repr

/-- `verify_voter_by_face(aadhar, voter_id, face_img)` from
`facial_auth_server.py`.  The bare name `VERIFICATION_THRESHOLD` in its
body denotes the configured `app.config` value (0.6 by default), passed
here as `threshold`; `embed` is `get_face_embedding`. -/
def verify_voter_by_face {F : Type} (hash : String → String → String)
    (embed : F → Embedding) (threshold : ℚ) (db : VoterDb)
    (aadhar voter_id : String) (face : F) : Bool × VerifyDetails :=
  let voter_key := hash aadhar voter_id
  match storeFind db voter_key with
  | none => (false, VerifyDetails.voterNotFound)
  | some r =>
    let similarity := compute_similarity (embed face) r.embedding
    if simGE similarity threshold then
      (true, VerifyDetails.matched similarity r.voter_id)
    else
      (false, VerifyDetails.unmatched similarity threshold)

/-- Outcome of a `verify-voter` request (either copy of the handler). -/
inductive VoterVerifyOutcome where
  | missingField (msg : String)
  | otpRequired
  | faceError (msg : String)
  | result (verified : Bool) (details : VerifyDetails)
deriving DecidableEq, Repr

/-- The part both `verify-voter` handlers share verbatim after their
input checks: extract the face, call `verify_voter_by_face`, and apply
the first-seen registration fallback
`if voter_key not in voter_database and not verified`.
`extractFace` is `extract_face_from_image` (OpenCV), `temp_path` the
temporary file name built from the fresh verification UUID. -/
def verify_voter_face_phase {F : Type} (hash : String → String → String)
    (extractFace : String → Except String F) (embed : F → Embedding)
    (threshold : ℚ) (db : VoterDb) (aadhar voter_id image_data : String)
    (now : ℚ) (temp_path : String) : VoterVerifyOutcome × VoterDb :=
  match extractFace image_data with
  | Except.error e => (VoterVerifyOutcome.faceError e, db)
  | Except.ok face =>
    let voter_key := hash aadhar voter_id
    let vd := verify_voter_by_face hash embed threshold db aadhar voter_id face
    if !storeContains db voter_key && !vd.1 then
      let db2 := (register_voter hash db aadhar voter_id (embed face) now
        (some temp_path)).2
      (VoterVerifyOutcome.result true
        (VerifyDetails.newlyRegistered 1 voter_id), db2)
    else
      (VoterVerifyOutcome.result vd.1 vd.2, db)

/-- `verify_voter` from `auth_handlers.py` (route
`/api/auth/verify-voter`): field validation, then the OTP gate
`otp_storage.get(voter_key, {}).get('verified', False)`, then the shared
face phase.  Note the gate reads only the `verified` flag. -/
def ah_verify_voter {F : Type} (hash : String → String → String)
    (extractFace : String → Except String F) (embed : F → Embedding)
    (threshold : ℚ) (otps : OtpStore) (db : VoterDb)
    (aadhar voter_id image_data : String) (now : ℚ) (temp_path : String) :
    VoterVerifyOutcome × VoterDb :=
  if aadhar = "" then
    (VoterVerifyOutcome.missingField "Aadhar number is required", db)
  else if voter_id = "" then
    (VoterVerifyOutcome.missingField "Voter ID is required", db)
  else if image_data = "" then
    (VoterVerifyOutcome.missingField "Image data is required", db)
  else
    let voter_key := hash aadhar voter_id
    match storeFind otps voter_key with
    | none => (VoterVerifyOutcome.otpRequired, db)
    | some r =>
      if r.verified then
        verify_voter_face_phase hash extractFace embed threshold db aadhar
          voter_id image_data now temp_path
      else (VoterVerifyOutcome.otpRequired, db)

/-- `verify_voter` from `facial_auth_server.py` (the duplicated route
`/api/auth/verify-voter` defined at module level): identical to the
`auth_handlers` copy except that it consults no OTP storage at all --
there is no OTP gate between the input checks and the face phase. -/
def fs_verify_voter {F : Type} (hash : String → String → String)
    (extractFace : String → Except String F) (embed : F → Embedding)
    (threshold : ℚ) (db : VoterDb) (aadhar voter_id image_data : String)
    (now : ℚ) (temp_path : String) : VoterVerifyOutcome × VoterDb :=
  if aadhar = "" then
    (VoterVerifyOutcome.missingField "Aadhar number is required", db)
  else if voter_id = "" then
    (VoterVerifyOutcome.missingField "Voter ID is required", db)
  else if image_data = "" then
    (VoterVerifyOutcome.missingField "Image data is required", db)
  else
    verify_voter_face_phase hash extractFace embed threshold db aadhar
      voter_id image_data now temp_path

/-! ## The credential gate (`verify_credentials`, `verify_otp`) -/

/-- Outcome of `/api/auth/verify-credentials` (`auth_handlers.py`). -/
inductive CredOutcome where
  | missingField (msg : String)
  | issued (found_in_db : Bool) (otp : String)
deriving DecidableEq, Repr

/-- `verify_credentials` from `auth_handlers.py`: validates the fields,
then unconditionally assigns
`otp_storage[voter_key] = {otp, created_at: now, verified: False}`.
The freshly generated 6-digit random code is the external input `otp`;
the development response echoes it together with `found_in_db`. -/
def verify_credentials (hash : String → String → String) (otps : OtpStore)
    (db : VoterDb) (aadhar voter_id mobile otp : String) (now : ℚ) :
    CredOutcome × OtpStore :=
  if aadhar = "" then
    (CredOutcome.missingField "Aadhar number is required", otps)
  else if voter_id = "" then
    (CredOutcome.missingField "Voter ID is required", otps)
  else if mobile = "" then
    (CredOutcome.missingField "Mobile number is required", otps)
  else
    let voter_key := hash aadhar voter_id
    (CredOutcome.issued (storeContains db voter_key) otp,
      storeInsert otps voter_key ⟨otp, now, false⟩)

/-- Outcome of `/api/auth/verify-otp` (`auth_handlers.py`). -/
inductive OtpCheckOutcome where
  | missingField (msg : String)
  | noOtpRequest
  | invalidOtp
  | expired
  | verifiedOk
deriving DecidableEq, Repr

/-- `verify_otp` from `auth_handlers.py`: lookup, code comparison, then
the expiry check `(now - created_at).total_seconds() / 60 > 10`; on
success the record is marked `verified = True` and stored back. -/
def verify_otp (hash : String → String → String) (otps : OtpStore)
    (aadhar voter_id otp : String) (now : ℚ) : OtpCheckOutcome × OtpStore :=
  if aadhar = "" ∨ voter_id = "" then
    (OtpCheckOutcome.missingField "Aadhar and Voter ID are required", otps)
  else if otp = "" then
    (OtpCheckOutcome.missingField "OTP is required", otps)
  else
    let voter_key := hash aadhar voter_id
    match storeFind otps voter_key with
    | none => (OtpCheckOutcome.noOtpRequest, otps)
    | some r =>
      if r.otp ≠ otp then (OtpCheckOutcome.invalidOtp, otps)
      else if (now - r.created_at) / 60 > 10 then (OtpCheckOutcome.expired, otps)
      else (OtpCheckOutcome.verifiedOk,
        storeInsert otps voter_key ⟨r.otp, r.created_at, true⟩)

/-! ## The voting comparison endpoint (`compare_face_for_vote`) -/

/-- Outcome of `/api/vote/compare`. -/
inductive CompareOutcome where
  | missingImage
  | refUnavailable
  | noFaceDetected (msg : String)
  | result (is_match : Bool) (similarity : SimValue) (threshold : ℚ)
deriving DecidableEq, Repr

/-- `compare_face_for_vote` from `facial_auth_server.py`: compares the
live face against the single reference embedding;
`is_match = similarity >= VERIFICATION_THRESHOLD` (the configured
threshold).  A failed face extraction is a successful call that reports
no match (`noFaceDetected`), not an error status. -/
def compare_face_for_vote {F : Type}
    (extractFace : String → Except String F) (embed : F → Embedding)
    (refEmb : Option Embedding) (threshold : ℚ) (image_data : String) :
    CompareOutcome :=
  if image_data = "" then CompareOutcome.missingImage
  else
    match refEmb with
    | none => CompareOutcome.refUnavailable
    | some ref =>
      match extractFace image_data with
      | Except.error e => CompareOutcome.noFaceDetected e
      | Except.ok face =>
        let similarity := compute_similarity (embed face) ref
        CompareOutcome.result (simGE similarity threshold) similarity threshold

/-! ## Concrete stand-ins for the external capabilities

Used by the concrete scenarios below.  `hashQ` plays the role of the
SHA-256 hex digest: in a scenario involving a single identity pair only
determinism of the digest matters, so a constant digest is adequate.
`extractQ` is a face extractor that succeeds, `embedQ` an embedding
provider returning a fixed unit vector. -/

def hashQ : String → String → String :=
  fun _ _ => "e3b0c44298fc1c149afbf4c8996fb92427ae41e4649b934ca495991b7852b855"

def extractQ : String → Except String Nat := fun _ => Except.ok 0

def embedQ : Nat → Embedding := fun _ => [1, 0]

/-! ## Library lemmas about the stores and the scorer -/

lemma storeFind_insert_self {α : Type} (s : Store α) (k : String) (v : α) :
    storeFind (storeInsert s k v) k = some v := by
  induction s with
  | nil => simp [storeInsert, storeFind]
  | cons hd tl ih =>
    obtain ⟨k2, v2⟩ := hd
    by_cases h : k2 = k
    · simp [storeInsert, storeFind, h]
    · simp [storeInsert, storeFind, h, ih]

lemma storeFind_insert_of_ne {α : Type} (s : Store α) (k k2 : String) (v : α)
    (h : k2 ≠ k) : storeFind (storeInsert s k v) k2 = storeFind s k2 := by
  have h1 : ¬ k = k2 := fun hkk => h hkk.symm
  induction s with
  | nil => simp [storeInsert, storeFind, h1]
  | cons hd tl ih =>
    obtain ⟨k3, v3⟩ := hd
    by_cases hk : k3 = k
    · subst hk
      simp [storeInsert, storeFind, h1]
    · simp [storeInsert, storeFind, hk, ih]

lemma mem_storeInsert {α : Type} (s : Store α) (k : String) (v : α)
    (kv : String × α) (h : kv ∈ storeInsert s k v) : kv = (k, v) ∨ kv ∈ s := by
  induction s with
  | nil => simpa [storeInsert] using h
  | cons hd tl ih =>
    obtain ⟨k2, v2⟩ := hd
    by_cases hk : k2 = k
    · simp [storeInsert, hk] at h
      rcases h with h | h
      · exact Or.inl (by simp [h])
      · exact Or.inr (by simp [h])
    · simp [storeInsert, hk] at h
      rcases h with h | h
      · exact Or.inr (by simp [h])
      · rcases ih h with h2 | h2
        · exact Or.inl h2
        · exact Or.inr (by simp [h2])

lemma normSq_cons (x : ℚ) (xs : List ℚ) :
    normSq (x :: xs) = x * x + normSq xs := by
  simp [normSq, dotProduct]

lemma normSq_nonneg (e : Embedding) : 0 ≤ normSq e := by
  induction e with
  | nil => simp [normSq, dotProduct]
  | cons x xs ih => rw [normSq_cons]; nlinarith [mul_self_nonneg x]

/-- If a vector has zero norm then every coordinate is zero, hence its
dot product with anything is zero.  This is why the degenerate branch of
`compute_similarity` is `0.0/0.0 = NaN` rather than an infinity. -/
lemma dotProduct_eq_zero_of_normSq (e1 e2 : Embedding) (h : normSq e1 = 0) :
    dotProduct e1 e2 = 0 := by
  induction e1 generalizing e2 with
  | nil => simp [dotProduct]
  | cons x xs ih =>
    rw [normSq_cons] at h
    have hx : x * x = 0 ∧ normSq xs = 0 := by
      constructor <;> nlinarith [mul_self_nonneg x, normSq_nonneg xs]
    have hx0 : x = 0 := by
      have := hx.1; nlinarith [this]
    cases e2 with
    | nil => simp [dotProduct]
    | cons y ys =>
      have : dotProduct xs ys = 0 := ih ys hx.2
      simp [dotProduct, hx0] at this ⊢
      simpa [dotProduct] using this

/-- Correctness of the exact comparison `CosScore.ge` against the real
value `dot / (sqrt nsq1 * sqrt nsq2)` it encodes, for positive squared
norms. -/
lemma cosScore_ge_iff (d a b t : ℚ) (ha : 0 < a) (hb : 0 < b) :
    CosScore.ge ⟨d, a, b⟩ t = true ↔
      (t : ℝ) ≤ (d : ℝ) / (Real.sqrt (a : ℚ) * Real.sqrt (b : ℚ)) := by
  have haR : (0 : ℝ) < ((a : ℚ) : ℝ) := by exact_mod_cast ha
  have hbR : (0 : ℝ) < ((b : ℚ) : ℝ) := by exact_mod_cast hb
  have hA : 0 < Real.sqrt (a : ℚ) := Real.sqrt_pos.mpr haR
  have hB : 0 < Real.sqrt (b : ℚ) := Real.sqrt_pos.mpr hbR
  have hA2 : Real.sqrt (a : ℚ) * Real.sqrt (a : ℚ) = ((a : ℚ) : ℝ) :=
    Real.mul_self_sqrt haR.le
  have hB2 : Real.sqrt (b : ℚ) * Real.sqrt (b : ℚ) = ((b : ℚ) : ℝ) :=
    Real.mul_self_sqrt hbR.le
  have hAB : 0 < Real.sqrt (a : ℚ) * Real.sqrt (b : ℚ) := mul_pos hA hB
  rw [le_div_iff₀ hAB]
  unfold CosScore.ge
  dsimp only
  split_ifs with hd ht hts
  · -- 0 ≤ d and t ≤ 0: the score is nonnegative, the threshold is not
    have hdR : (0 : ℝ) ≤ (d : ℝ) := by exact_mod_cast hd
    have htR : (t : ℝ) ≤ 0 := by exact_mod_cast ht
    simp only [true_iff]
    nlinarith [mul_pos hA hB]
  · -- 0 ≤ d and 0 < t: compare the squares
    have hdR : (0 : ℝ) ≤ (d : ℝ) := by exact_mod_cast hd
    have htR : (0 : ℝ) < (t : ℝ) := by exact_mod_cast (not_le.mp ht)
    rw [decide_eq_true_eq]
    constructor
    · intro h
      have hq : ((t : ℝ)) ^ 2 * ((a : ℚ) : ℝ) * ((b : ℚ) : ℝ) ≤ (d : ℝ) ^ 2 := by
        exact_mod_cast h
      rw [← hA2, ← hB2] at hq
      nlinarith [mul_pos hA hB, sq_nonneg ((t : ℝ) * (Real.sqrt (a : ℚ) * Real.sqrt (b : ℚ)) - (d : ℝ))]
    · intro h
      have h1 : (0 : ℝ) ≤ (t : ℝ) * (Real.sqrt (a : ℚ) * Real.sqrt (b : ℚ)) :=
        by positivity
      have hq : ((t : ℝ)) ^ 2 * (Real.sqrt (a : ℚ) * Real.sqrt (a : ℚ)) *
          (Real.sqrt (b : ℚ) * Real.sqrt (b : ℚ)) ≤ (d : ℝ) ^ 2 := by
        nlinarith [mul_self_le_mul_self h1 h]
      rw [hA2, hB2] at hq
      exact_mod_cast hq
  · -- d < 0 and 0 ≤ t: the score is negative, the threshold is not
    have hdR : (d : ℝ) < 0 := by exact_mod_cast (not_le.mp hd)
    have htR : (0 : ℝ) ≤ (t : ℝ) := by exact_mod_cast hts
    simp only [false_iff, not_le]
    nlinarith [mul_pos hA hB]
  · -- d < 0 and t < 0: compare the squares, reversed
    have hdR : (d : ℝ) < 0 := by exact_mod_cast (not_le.mp hd)
    have htR : (t : ℝ) < 0 := by exact_mod_cast (not_le.mp hts)
    rw [decide_eq_true_eq]
    constructor
    · intro h
      have hq : (d : ℝ) ^ 2 ≤ ((t : ℝ)) ^ 2 * ((a : ℚ) : ℝ) * ((b : ℚ) : ℝ) := by
        exact_mod_cast h
      rw [← hA2, ← hB2] at hq
      by_contra hcon
      push_neg at hcon
      have h3 : (0 : ℝ) ≤ -((t : ℝ) * (Real.sqrt (a : ℚ) * Real.sqrt (b : ℚ))) := by
        nlinarith [mul_pos hA hB]
      have h4 : -((t : ℝ) * (Real.sqrt (a : ℚ) * Real.sqrt (b : ℚ))) < -(d : ℝ) := by
        linarith
      nlinarith [mul_self_lt_mul_self h3 h4]
    · intro h
      have h1 : (0 : ℝ) ≤ -(d : ℝ) := by linarith
      have h2 : -(d : ℝ) ≤ -((t : ℝ) * (Real.sqrt (a : ℚ) * Real.sqrt (b : ℚ))) := by
        linarith
      have hq : (d : ℝ) ^ 2 ≤ ((t : ℝ)) ^ 2 * (Real.sqrt (a : ℚ) * Real.sqrt (a : ℚ)) *
          (Real.sqrt (b : ℚ) * Real.sqrt (b : ℚ)) := by
        nlinarith [mul_self_le_mul_self h1 h2]
      rw [hA2, hB2] at hq
      exact_mod_cast hq

/-- The executable comparison `simGE` applied to `compute_similarity`
decides exactly `threshold <= cosineSim` whenever both norms are
positive. -/
lemma simGE_compute_iff (e1 e2 : Embedding) (t : ℚ)
    (h1 : 0 < normSq e1) (h2 : 0 < normSq e2) :
    simGE (compute_similarity e1 e2) t = true ↔ (t : ℝ) ≤ cosineSim e1 e2 := by
  have hab : ¬ (normSq e1 * normSq e2 = 0) := by positivity
  rw [compute_similarity, if_neg hab]
  exact cosScore_ge_iff (dotProduct e1 e2) (normSq e1) (normSq e2) t h1 h2

lemma registryShape_cons (kv : String × VoterRecord) (tl : VoterDb) :
    registryShape (kv :: tl)
      = (kv.1, kv.2.aadhar, kv.2.voter_id, kv.2.registration_time) ::
        registryShape tl := rfl

lemma list_voters_cons (kv : String × VoterRecord) (tl : VoterDb) :
    list_voters (kv :: tl)
      = ⟨kv.1.take 8 ++ "...", kv.2.aadhar, kv.2.voter_id,
          kv.2.registration_time⟩ :: list_voters tl := rfl

/-- `list_voters` reads nothing outside `registryShape`: registries with
the same shape (same keys, masked identifiers, secondary identifiers and
timestamps -- embeddings and image paths free) produce the same output. -/
lemma list_voters_shape_eq (db1 db2 : VoterDb)
    (h : registryShape db1 = registryShape db2) :
    list_voters db1 = list_voters db2 := by
  induction db1 generalizing db2 with
  | nil =>
    cases db2 with
    | nil => rfl
    | cons hd tl => exact absurd h (by simp [registryShape])
  | cons hd tl ih =>
    cases db2 with
    | nil => exact absurd h (by simp [registryShape])
    | cons hd2 tl2 =>
      rw [registryShape_cons, registryShape_cons] at h
      have hh := (List.cons.injEq _ _ _ _).mp h
      obtain ⟨hhd, htl⟩ := hh
      rw [list_voters_cons, list_voters_cons]
      have h1 : hd.1 = hd2.1 := congrArg (fun x => x.1) hhd
      have h2 : hd.2.aadhar = hd2.2.aadhar := congrArg (fun x => x.2.1) hhd
      have h3 : hd.2.voter_id = hd2.2.voter_id := congrArg (fun x => x.2.2.1) hhd
      have h4 : hd.2.registration_time = hd2.2.registration_time :=
        congrArg (fun x => x.2.2.2) hhd
      rw [h1, h2, h3, h4, ih tl2 htl]

/-- Every record reachable through `register_voter` stores its primary
identifier in masked form. -/
lemma builtByRegister_masked (hash : String → String → String) (db : VoterDb)
    (h : BuiltByRegister hash db) :
    ∀ kv ∈ db, ∃ a, (kv.2).aadhar = maskAadhar a := by
  induction h with
  | nil => intro kv hkv; simp at hkv
  | step db a v e t p hdb ih =>
    intro kv hkv
    have hkv2 : kv ∈ storeInsert db (hash a v)
        ⟨maskAadhar a, v, e, t, p⟩ := by
      simpa [register_voter] using hkv
    rcases mem_storeInsert _ _ _ _ hkv2 with h2 | h2
    · exact ⟨a, by simp [h2]⟩
    · exact ih kv h2

/-! ## Claims -/

/-- C1, counterexample.  Registering an identity that already has a
record raises no error: the second `register_voter` call for the same
`(aadhar, voter_id)` pair returns normally and the stored record now
holds the second embedding and timestamp -- the first record was
silently overwritten, contradicting both the `AlreadyRegistered` failure
and the never-mutated-after-creation property. -/
theorem register_voter_overwrite_cex :
    storeFind (register_voter hashQ
        (register_voter hashQ [] "999988887777" "VOT1234567" [1, 0] 0 none).2
        "999988887777" "VOT1234567" [0, 1] 5 none).2
        (hashQ "999988887777" "VOT1234567")
      = some ⟨"9999****7777", "VOT1234567", [0, 1], 5, none⟩ ∧
    (register_voter hashQ
        (register_voter hashQ [] "999988887777" "VOT1234567" [1, 0] 0 none).2
        "999988887777" "VOT1234567" [0, 1] 5 none).1
      = hashQ "999988887777" "VOT1234567" := by
  constructor
  · decide
  · rfl

/-- C1, amended.  `register_voter` never fails: it always returns the
voter key, the registry afterwards maps that key to the freshly built
record (so an existing record for the key is silently overwritten,
last write wins), and every other key is untouched. -/
theorem register_voter_last_write_wins (hash : String → String → String)
    (db : VoterDb) (aadhar voter_id : String) (e : Embedding) (now : ℚ)
    (p : Option String) :
    (register_voter hash db aadhar voter_id e now p).1 = hash aadhar voter_id ∧
    storeFind (register_voter hash db aadhar voter_id e now p).2
        (hash aadhar voter_id)
      = some ⟨maskAadhar aadhar, voter_id, e, now, p⟩ ∧
    ∀ k, k ≠ hash aadhar voter_id →
      storeFind (register_voter hash db aadhar voter_id e now p).2 k
        = storeFind db k := by
  refine ⟨rfl, ?_, ?_⟩
  · simpa [register_voter] using
      storeFind_insert_self db (hash aadhar voter_id)
        ⟨maskAadhar aadhar, voter_id, e, now, p⟩
  · intro k hk
    simpa [register_voter] using
      storeFind_insert_of_ne db (hash aadhar voter_id) k
        ⟨maskAadhar aadhar, voter_id, e, now, p⟩ hk

/-- C1, witness for the amended theorem. -/
theorem register_voter_last_write_wins_w :
    storeFind (register_voter hashQ [] "999988887777" "VOT1234567"
        [1, 0] 0 none).2 "unrelated-key"
      = storeFind ([] : VoterDb) "unrelated-key" :=
  (register_voter_last_write_wins hashQ [] "999988887777" "VOT1234567"
    [1, 0] 0 none).2.2 "unrelated-key" (by decide)

/-- C2, counterexample.  A challenge issued at time 0 and marked
verified is read by the biometric handler at time 6000 s (100 minutes,
far beyond the 10-minute window): the OTP gate still passes and the
biometric verification runs to completion (here: first-seen
registration), because the gate in `verify_voter` of `auth_handlers.py`
reads only the `verified` flag and never re-applies the expiry check. -/
theorem verified_gate_ignores_expiry_cex :
    ah_verify_voter hashQ extractQ embedQ (3/5)
        [(hashQ "999988887777" "VOT1234567", ⟨"123456", 0, true⟩)] []
        "999988887777" "VOT1234567" "img" 6000 "tmp.jpg"
      = (VoterVerifyOutcome.result true
          (VerifyDetails.newlyRegistered 1 "VOT1234567"),
         [(hashQ "999988887777" "VOT1234567",
           ⟨"9999****7777", "VOT1234567", [1, 0], 6000, some "tmp.jpg"⟩)]) := by
  decide

/-- C2, amended.  Once a challenge is marked verified, the OTP gate of
the biometric verification handler passes at every later read,
regardless of how much time has elapsed since `created_at`: the handler
is then identical to its face phase for every `now`.  The expiry window
is applied only inside the OTP code check (`verify_otp`), not at this
read. -/
theorem verified_gate_skips_expiry {F : Type} (hash : String → String → String)
    (extractFace : String → Except String F) (embed : F → Embedding)
    (threshold : ℚ) (otps : OtpStore) (db : VoterDb)
    (aadhar voter_id image_data temp_path : String) (now : ℚ)
    (ha : aadhar ≠ "") (hv : voter_id ≠ "") (hi : image_data ≠ "")
    (r : OtpRecord) (hr : storeFind otps (hash aadhar voter_id) = some r)
    (hver : r.verified = true) :
    ah_verify_voter hash extractFace embed threshold otps db aadhar voter_id
        image_data now temp_path
      = verify_voter_face_phase hash extractFace embed threshold db aadhar
          voter_id image_data now temp_path := by
  simp [ah_verify_voter, ha, hv, hi, hr, hver]

/-- C2, witness: the amended theorem applied 100 minutes after issue. -/
theorem verified_gate_skips_expiry_w :
    ah_verify_voter hashQ extractQ embedQ (3/5)
        [(hashQ "999988887777" "VOT1234567", ⟨"123456", 0, true⟩)] []
        "999988887777" "VOT1234567" "img" 6000 "other.jpg"
      = verify_voter_face_phase hashQ extractQ embedQ (3/5) []
          "999988887777" "VOT1234567" "img" 6000 "other.jpg" :=
  verified_gate_skips_expiry hashQ extractQ embedQ (3/5)
    [(hashQ "999988887777" "VOT1234567", ⟨"123456", 0, true⟩)] []
    "999988887777" "VOT1234567" "img" "other.jpg" 6000
    (by decide) (by decide) (by decide) ⟨"123456", 0, true⟩ (by decide) rfl

/-- C3, counterexample.  The duplicated biometric verification route in
`facial_auth_server.py` (`verify_voter`, module level) takes no OTP
state whatsoever: with no OTP challenge ever issued or checked for this
identity, the request still proceeds through face extraction, registers
the captured embedding, writes the registry and returns a verified
result -- it does not fail with the step-order error. -/
theorem fs_verify_voter_no_gate_cex :
    fs_verify_voter hashQ extractQ embedQ (3/5) []
        "999988887777" "VOT1234567" "img" 0 "tmp.jpg"
      = (VoterVerifyOutcome.result true
          (VerifyDetails.newlyRegistered 1 "VOT1234567"),
         [(hashQ "999988887777" "VOT1234567",
           ⟨"9999****7777", "VOT1234567", [1, 0], 0, some "tmp.jpg"⟩)]) := by
  decide

/-- C3, amended.  The `auth_handlers.py` copy of the biometric
verification handler does enforce the step order: whenever no OTP
challenge for the identity has been successfully checked (no stored
challenge, or a stored challenge whose `verified` flag is false), the
request fails with the OTP-required error and the registry is returned
unchanged; the result is the same for every face extractor and
embedding provider, so no face extraction or registration can have
taken place.  The module-level copy in `facial_auth_server.py` has no
such gate (see the counterexample). -/
theorem ah_otp_gate_blocks {F : Type} (hash : String → String → String)
    (extractFace : String → Except String F) (embed : F → Embedding)
    (threshold : ℚ) (otps : OtpStore) (db : VoterDb)
    (aadhar voter_id image_data temp_path : String) (now : ℚ)
    (ha : aadhar ≠ "") (hv : voter_id ≠ "") (hi : image_data ≠ "")
    (hgate : ∀ r, storeFind otps (hash aadhar voter_id) = some r →
      r.verified = false) :
    ah_verify_voter hash extractFace embed threshold otps db aadhar voter_id
        image_data now temp_path
      = (VoterVerifyOutcome.otpRequired, db) := by
  rcases hfind : storeFind otps (hash aadhar voter_id) with _ | r
  · simp [ah_verify_voter, ha, hv, hi, hfind]
  · have hv2 := hgate r hfind
    simp [ah_verify_voter, ha, hv, hi, hfind, hv2]

/-- C3, witness: an empty OTP store blocks the gated handler. -/
theorem ah_otp_gate_blocks_w :
    ah_verify_voter hashQ extractQ embedQ (3/5) [] []
        "999988887777" "VOT1234567" "img" 0 "tmp.jpg"
      = (VoterVerifyOutcome.otpRequired, []) :=
  ah_otp_gate_blocks hashQ extractQ embedQ (3/5) [] []
    "999988887777" "VOT1234567" "img" "tmp.jpg" 0
    (by decide) (by decide) (by decide) (fun r hr => by simp [storeFind] at hr)

/-- C4, counterexample.  On a pair with a zero-norm first vector the
scorer does not fail: `compute_similarity` performs the division
unconditionally and the IEEE result is NaN (the numerator `np.dot` is
also zero), so the caller receives NaN instead of the
`DegenerateVector` error the claim requires. -/
theorem compute_similarity_zero_norm_cex :
    compute_similarity [0, 0] [1, 0] = SimValue.nan := by
  norm_num [compute_similarity, normSq, dotProduct]

/-- C4, amended.  For every pair in which either vector has zero norm,
`compute_similarity` raises no error and returns the IEEE NaN produced
by `0.0/0.0`; the downstream comparison `similarity >= threshold` then
evaluates to false for every threshold. -/
theorem compute_similarity_degenerate_nan (e1 e2 : Embedding)
    (h : normSq e1 = 0 ∨ normSq e2 = 0) :
    compute_similarity e1 e2 = SimValue.nan ∧
    ∀ t : ℚ, simGE (compute_similarity e1 e2) t = false := by
  have hz : normSq e1 * normSq e2 = 0 := by
    rcases h with h | h <;> simp [h]
  refine ⟨by simp [compute_similarity, hz], ?_⟩
  intro t
  simp [compute_similarity, hz, simGE]

/-- C4, witness for the amended theorem. -/
theorem compute_similarity_degenerate_nan_w :
    compute_similarity [0, 0] [1, 2] = SimValue.nan ∧
    simGE (compute_similarity [0, 0] [1, 2]) (3/5) = false :=
  ⟨(compute_similarity_degenerate_nan [0, 0] [1, 2]
      (Or.inl (by norm_num [normSq, dotProduct]))).1,
   (compute_similarity_degenerate_nan [0, 0] [1, 2]
      (Or.inl (by norm_num [normSq, dotProduct]))).2 (3/5)⟩

/-- C5, confirmed.  With the OTP gate satisfied, a face successfully
extracted, and the identity key absent from the registry, the gated
biometric handler applies the first-seen enrollment policy: it registers
the captured embedding (masked aadhar, full voter id, the embedding the
provider produced for the extracted face, the current time and the
temporary image path) as the canonical record under the identity key,
and returns a verified result whose details carry the
`newly_registered` flag (with similarity literal 1.0). -/
theorem first_seen_enrollment {F : Type} (hash : String → String → String)
    (extractFace : String → Except String F) (embed : F → Embedding)
    (threshold : ℚ) (otps : OtpStore) (db : VoterDb)
    (aadhar voter_id image_data temp_path : String) (now : ℚ)
    (ha : aadhar ≠ "") (hv : voter_id ≠ "") (hi : image_data ≠ "")
    (r : OtpRecord) (hr : storeFind otps (hash aadhar voter_id) = some r)
    (hver : r.verified = true)
    (face : F) (hface : extractFace image_data = Except.ok face)
    (hnew : storeFind db (hash aadhar voter_id) = none) :
    ah_verify_voter hash extractFace embed threshold otps db aadhar voter_id
        image_data now temp_path
      = (VoterVerifyOutcome.result true
          (VerifyDetails.newlyRegistered 1 voter_id),
         storeInsert db (hash aadhar voter_id)
           ⟨maskAadhar aadhar, voter_id, embed face, now, some temp_path⟩) := by
  simp [ah_verify_voter, ha, hv, hi, hr, hver, verify_voter_face_phase, hface,
    verify_voter_by_face, hnew, storeContains, register_voter]

/-- C5, witness. -/
theorem first_seen_enrollment_w :
    ah_verify_voter hashQ extractQ embedQ (3/5)
        [(hashQ "999988887777" "VOT1234567", ⟨"123456", 100, true⟩)] []
        "999988887777" "VOT1234567" "img" 160 "tmp.jpg"
      = (VoterVerifyOutcome.result true
          (VerifyDetails.newlyRegistered 1 "VOT1234567"),
         storeInsert [] (hashQ "999988887777" "VOT1234567")
           ⟨maskAadhar "999988887777", "VOT1234567", embedQ 0, 160,
             some "tmp.jpg"⟩) :=
  first_seen_enrollment hashQ extractQ embedQ (3/5)
    [(hashQ "999988887777" "VOT1234567", ⟨"123456", 100, true⟩)] []
    "999988887777" "VOT1234567" "img" "tmp.jpg" 160
    (by decide) (by decide) (by decide) ⟨"123456", 100, true⟩ (by decide) rfl
    0 rfl rfl

/-- C6, confirmed.  For a stored challenge checked with the matching
code, `verify_otp` succeeds exactly when at most 600 seconds (10
minutes) have elapsed since `created_at`, and fails with the expiry
error exactly when more than 600 seconds have elapsed: the boundary
instant `created_at + 600` is still valid, one second later
(`created_at + 601`) is expired, because the code tests
`elapsed_minutes > 10` strictly. -/
theorem otp_expiry_boundary (hash : String → String → String)
    (otps : OtpStore) (aadhar voter_id otp : String) (now : ℚ)
    (hav : ¬ (aadhar = "" ∨ voter_id = "")) (ho : otp ≠ "")
    (r : OtpRecord) (hr : storeFind otps (hash aadhar voter_id) = some r)
    (hcode : r.otp = otp) :
    ((verify_otp hash otps aadhar voter_id otp now).1
        = OtpCheckOutcome.verifiedOk ↔ now - r.created_at ≤ 600) ∧
    ((verify_otp hash otps aadhar voter_id otp now).1
        = OtpCheckOutcome.expired ↔ 600 < now - r.created_at) := by
  have hne : ¬ r.otp ≠ otp := by simp [hcode]
  have hiff : ((now - r.created_at) / 60 > 10) ↔ (600 < now - r.created_at) := by
    rw [gt_iff_lt, lt_div_iff₀ (by norm_num : (0:ℚ) < 60)]
    norm_num
  rcases lt_or_le 600 (now - r.created_at) with hexp | hexp
  · have hgt : (now - r.created_at) / 60 > 10 := hiff.mpr hexp
    have hres : (verify_otp hash otps aadhar voter_id otp now).1
        = OtpCheckOutcome.expired := by
      simp [verify_otp, hav, ho, hr, hne, hgt]
    rw [hres]
    exact ⟨⟨fun h => absurd h (by decide), fun h => absurd hexp (not_lt.mpr h)⟩,
      ⟨fun _ => hexp, fun _ => rfl⟩⟩
  · have hgt : ¬ ((now - r.created_at) / 60 > 10) := fun hc =>
      absurd (hiff.mp hc) (not_lt.mpr hexp)
    have hres : (verify_otp hash otps aadhar voter_id otp now).1
        = OtpCheckOutcome.verifiedOk := by
      simp [verify_otp, hav, ho, hr, hne, hgt]
    rw [hres]
    exact ⟨⟨fun _ => hexp, fun _ => rfl⟩,
      ⟨fun h => absurd h (by decide), fun h => absurd h (not_lt.mpr hexp)⟩⟩

/-- C6, witness: the boundary instant, 600 seconds after issue. -/
theorem otp_expiry_boundary_w :
    ((verify_otp hashQ
        [(hashQ "999988887777" "VOT1234567", ⟨"123456", 0, false⟩)]
        "999988887777" "VOT1234567" "123456" 600).1
        = OtpCheckOutcome.verifiedOk ↔ (600 : ℚ) - 0 ≤ 600) ∧
    ((verify_otp hashQ
        [(hashQ "999988887777" "VOT1234567", ⟨"123456", 0, false⟩)]
        "999988887777" "VOT1234567" "123456" 600).1
        = OtpCheckOutcome.expired ↔ (600 : ℚ) < 600 - 0) :=
  otp_expiry_boundary hashQ
    [(hashQ "999988887777" "VOT1234567", ⟨"123456", 0, false⟩)]
    "999988887777" "VOT1234567" "123456" 600
    (by decide) (by decide) ⟨"123456", 0, false⟩ (by decide) rfl

/-- C7, confirmed.  Both comparison sites use the inclusive `>=`: for a
registered voter with non-degenerate embeddings,
`verify_voter_by_face` answers Match exactly when the real cosine
similarity is at least the threshold, so in particular a score exactly
equal to the threshold is a Match; and `compare_face_for_vote` returns
a positive match result under exactly the same inclusive condition. -/
theorem match_threshold_inclusive {F : Type} (hash : String → String → String)
    (embed : F → Embedding) (threshold : ℚ) (db : VoterDb)
    (aadhar voter_id : String) (face : F) (vr : VoterRecord)
    (hfound : storeFind db (hash aadhar voter_id) = some vr)
    (h1 : 0 < normSq (embed face)) (h2 : 0 < normSq vr.embedding)
    (extractFace : String → Except String F) (image_data : String)
    (himg : image_data ≠ "") (face2 : F)
    (hex : extractFace image_data = Except.ok face2) (ref : Embedding)
    (h3 : 0 < normSq (embed face2)) (h4 : 0 < normSq ref) :
    ((verify_voter_by_face hash embed threshold db aadhar voter_id face).1 = true
       ↔ (threshold : ℝ) ≤ cosineSim (embed face) vr.embedding) ∧
    ((threshold : ℝ) = cosineSim (embed face) vr.embedding →
       (verify_voter_by_face hash embed threshold db aadhar voter_id face).1
         = true) ∧
    (compare_face_for_vote extractFace embed (some ref) threshold image_data
        = CompareOutcome.result true (compute_similarity (embed face2) ref)
            threshold
       ↔ (threshold : ℝ) ≤ cosineSim (embed face2) ref) := by
  have hmain : (verify_voter_by_face hash embed threshold db aadhar voter_id
      face).1 = simGE (compute_similarity (embed face) vr.embedding) threshold := by
    by_cases hs : simGE (compute_similarity (embed face) vr.embedding) threshold
      <;> simp [verify_voter_by_face, hfound, hs]
  have hcmp : compare_face_for_vote extractFace embed (some ref) threshold
      image_data
      = CompareOutcome.result
          (simGE (compute_similarity (embed face2) ref) threshold)
          (compute_similarity (embed face2) ref) threshold := by
    simp [compare_face_for_vote, himg, hex]
  refine ⟨?_, ?_, ?_⟩
  · rw [hmain]
    exact simGE_compute_iff _ _ _ h1 h2
  · intro he
    rw [hmain, simGE_compute_iff _ _ _ h1 h2]
    exact le_of_eq he
  · rw [hcmp]
    constructor
    · intro hres
      have hres2 : simGE (compute_similarity (embed face2) ref) threshold
          = true := by
        have := (CompareOutcome.result.injEq _ _ _ _ _ _).mp hres
        exact this.1
      exact (simGE_compute_iff _ _ _ h3 h4).mp hres2
    · intro hle
      rw [(simGE_compute_iff _ _ _ h3 h4).mpr hle]

/-- C7, witness: identical unit vectors, threshold 3/5. -/
theorem match_threshold_inclusive_w :
    ((verify_voter_by_face hashQ embedQ (3/5)
        [(hashQ "999988887777" "VOT1234567",
          ⟨"9999****7777", "VOT1234567", [1, 0], 0, none⟩)]
        "999988887777" "VOT1234567" 0).1 = true
       ↔ ((3/5 : ℚ) : ℝ) ≤ cosineSim (embedQ 0) [1, 0]) ∧
    (((3/5 : ℚ) : ℝ) = cosineSim (embedQ 0) [1, 0] →
       (verify_voter_by_face hashQ embedQ (3/5)
        [(hashQ "999988887777" "VOT1234567",
          ⟨"9999****7777", "VOT1234567", [1, 0], 0, none⟩)]
        "999988887777" "VOT1234567" 0).1 = true) ∧
    (compare_face_for_vote extractQ embedQ (some [1, 0]) (3/5) "img"
        = CompareOutcome.result true (compute_similarity (embedQ 0) [1, 0])
            (3/5)
       ↔ ((3/5 : ℚ) : ℝ) ≤ cosineSim (embedQ 0) [1, 0]) :=
  match_threshold_inclusive hashQ embedQ (3/5)
    [(hashQ "999988887777" "VOT1234567",
      ⟨"9999****7777", "VOT1234567", [1, 0], 0, none⟩)]
    "999988887777" "VOT1234567" 0
    ⟨"9999****7777", "VOT1234567", [1, 0], 0, none⟩ (by decide)
    (by norm_num [normSq, dotProduct, embedQ])
    (by norm_num [normSq, dotProduct])
    extractQ "img" (by decide) 0 rfl [1, 0]
    (by norm_num [normSq, dotProduct, embedQ])
    (by norm_num [normSq, dotProduct])

/-- C8, counterexample.  Listing a registry holding one record created
by `register_voter` for the identity pair `("123456789012",
"ABC1234567")`: the primary identifier does appear masked and no
embedding appears, but the secondary identifier `"ABC1234567"` is
returned in full, unmasked -- so it is not the case that every
identifier in the output is masked. -/
theorem list_voters_exposes_voter_id_cex :
    list_voters (register_voter hashQ [] "123456789012" "ABC1234567"
        [1, 0] 0 none).2
      = [⟨(hashQ "123456789012" "ABC1234567").take 8 ++ "...",
          "1234****9012", "ABC1234567", 0⟩] := by
  decide

/-- C8, amended.  The list operation is redacted in two of the three
claimed respects: (1) its output depends only on the registry shape
(keys, stored masked primary identifiers, secondary identifiers,
registration times), so registries differing only in embeddings or
image paths produce identical output and no value derived from an
embedding can appear; (2) in every registry built by `register_voter`,
each primary identifier in the output is of masked form.  However the
secondary identifier is exposed in full (see the counterexample), so
"every identifier is masked" must be weakened to "the primary
identifier is masked". -/
theorem list_voters_redaction :
    (∀ db1 db2 : VoterDb, registryShape db1 = registryShape db2 →
       list_voters db1 = list_voters db2) ∧
    (∀ (hash : String → String → String) (db : VoterDb),
       BuiltByRegister hash db →
       ∀ info ∈ list_voters db, ∃ a, info.aadhar = maskAadhar a) := by
  constructor
  · exact list_voters_shape_eq
  · intro hash db h info hinfo
    have hinfo2 : ∃ a b, (a, b) ∈ db ∧
        (⟨a.take 8 ++ "...", b.aadhar, b.voter_id, b.registration_time⟩ :
          VoterInfo) = info := by
      simpa [list_voters] using hinfo
    rcases hinfo2 with ⟨a0, b0, hmem, heq⟩
    rcases builtByRegister_masked hash db h (a0, b0) hmem with ⟨a, ha⟩
    exact ⟨a, by rw [← heq]; exact ha⟩

/-- C8, witness: two singleton registries that differ only in the
stored embedding are listed identically. -/
theorem list_voters_redaction_w :
    list_voters [("k1", ⟨"1234****9012", "VOT1234567", [1, 0], 0, none⟩)]
      = list_voters [("k1", ⟨"1234****9012", "VOT1234567", [0, 7], 0, none⟩)] :=
  list_voters_redaction.1
    [("k1", ⟨"1234****9012", "VOT1234567", [1, 0], 0, none⟩)]
    [("k1", ⟨"1234****9012", "VOT1234567", [0, 7], 0, none⟩)]
    (by decide)

/-- C9, confirmed.  Issuing a new challenge (`verify_credentials`)
unconditionally stores `{otp, created_at: now, verified: false}` under
the identity key, whatever was stored before -- in particular a
previously verified challenge is replaced by an unverified one -- and
consequently, until a new successful code check, the gated biometric
handler fails with the OTP-required error and leaves the registry
unchanged. -/
theorem reissue_resets_verified (hash : String → String → String)
    (otps : OtpStore) (db : VoterDb) (aadhar voter_id mobile otp : String)
    (now : ℚ) (ha : aadhar ≠ "") (hv : voter_id ≠ "") (hm : mobile ≠ "") :
    storeFind (verify_credentials hash otps db aadhar voter_id mobile otp now).2
        (hash aadhar voter_id) = some ⟨otp, now, false⟩ ∧
    ∀ (F : Type) (extractFace : String → Except String F)
      (embed : F → Embedding) (threshold : ℚ) (image_data temp_path : String)
      (now2 : ℚ), image_data ≠ "" →
      ah_verify_voter hash extractFace embed threshold
          (verify_credentials hash otps db aadhar voter_id mobile otp now).2 db
          aadhar voter_id image_data now2 temp_path
        = (VoterVerifyOutcome.otpRequired, db) := by
  have hs : (verify_credentials hash otps db aadhar voter_id mobile otp now).2
      = storeInsert otps (hash aadhar voter_id) ⟨otp, now, false⟩ := by
    simp [verify_credentials, ha, hv, hm]
  constructor
  · rw [hs]
    exact storeFind_insert_self _ _ _
  · intro F extractFace embed threshold image_data temp_path now2 hi
    rw [hs]
    simp [ah_verify_voter, ha, hv, hi, storeFind_insert_self]

/-- C9, witness: re-issue over an already verified challenge. -/
theorem reissue_resets_verified_w :
    storeFind (verify_credentials hashQ
        [(hashQ "999988887777" "VOT1234567", ⟨"111111", 0, true⟩)] []
        "999988887777" "VOT1234567" "9876543210" "222222" 50).2
        (hashQ "999988887777" "VOT1234567") = some ⟨"222222", 50, false⟩ ∧
    ah_verify_voter hashQ extractQ embedQ (3/5)
        (verify_credentials hashQ
          [(hashQ "999988887777" "VOT1234567", ⟨"111111", 0, true⟩)] []
          "999988887777" "VOT1234567" "9876543210" "222222" 50).2 []
        "999988887777" "VOT1234567" "img" 60 "tmp.jpg"
      = (VoterVerifyOutcome.otpRequired, []) := by
  have h := reissue_resets_verified hashQ
    [(hashQ "999988887777" "VOT1234567", ⟨"111111", 0, true⟩)] []
    "999988887777" "VOT1234567" "9876543210" "222222" 50
    (by decide) (by decide) (by decide)
  exact ⟨h.1, h.2 Nat extractQ embedQ (3/5) "img" "tmp.jpg" 60 (by decide)⟩

/-- C10, confirmed.  When the identity key is already present in the
registry (OTP gate satisfied, face extracted), the gated biometric
handler returns exactly the verdict of `verify_voter_by_face`, the
registry after the call is the registry before the call, and the
stored record for the key is unchanged -- the registration fallback is
guarded by `voter_key not in voter_database`, so it can never run. -/
theorem existing_voter_record_frame {F : Type}
    (hash : String → String → String)
    (extractFace : String → Except String F) (embed : F → Embedding)
    (threshold : ℚ) (otps : OtpStore) (db : VoterDb)
    (aadhar voter_id image_data temp_path : String) (now : ℚ)
    (ha : aadhar ≠ "") (hv : voter_id ≠ "") (hi : image_data ≠ "")
    (r : OtpRecord) (hr : storeFind otps (hash aadhar voter_id) = some r)
    (hver : r.verified = true)
    (face : F) (hface : extractFace image_data = Except.ok face)
    (vr : VoterRecord) (hfound : storeFind db (hash aadhar voter_id) = some vr) :
    (ah_verify_voter hash extractFace embed threshold otps db aadhar voter_id
        image_data now temp_path).2 = db ∧
    storeFind (ah_verify_voter hash extractFace embed threshold otps db aadhar
        voter_id image_data now temp_path).2 (hash aadhar voter_id) = some vr ∧
    (ah_verify_voter hash extractFace embed threshold otps db aadhar voter_id
        image_data now temp_path).1
      = VoterVerifyOutcome.result
          (verify_voter_by_face hash embed threshold db aadhar voter_id face).1
          (verify_voter_by_face hash embed threshold db aadhar voter_id
            face).2 := by
  have hcont : storeContains db (hash aadhar voter_id) = true := by
    simp [storeContains, hfound]
  have hmain : ah_verify_voter hash extractFace embed threshold otps db aadhar
      voter_id image_data now temp_path
      = (VoterVerifyOutcome.result
          (verify_voter_by_face hash embed threshold db aadhar voter_id face).1
          (verify_voter_by_face hash embed threshold db aadhar voter_id
            face).2, db) := by
    simp [ah_verify_voter, ha, hv, hi, hr, hver, verify_voter_face_phase,
      hface, hcont]
  rw [hmain]
  exact ⟨rfl, hfound, rfl⟩

/-- C10, witness: registered voter, matching face. -/
theorem existing_voter_record_frame_w :
    (ah_verify_voter hashQ extractQ embedQ (3/5)
        [(hashQ "999988887777" "VOT1234567", ⟨"123456", 0, true⟩)]
        [(hashQ "999988887777" "VOT1234567",
          ⟨"9999****7777", "VOT1234567", [1, 0], 0, none⟩)]
        "999988887777" "VOT1234567" "img" 60 "tmp.jpg").2
      = [(hashQ "999988887777" "VOT1234567",
          ⟨"9999****7777", "VOT1234567", [1, 0], 0, none⟩)] ∧
    storeFind (ah_verify_voter hashQ extractQ embedQ (3/5)
        [(hashQ "999988887777" "VOT1234567", ⟨"123456", 0, true⟩)]
        [(hashQ "999988887777" "VOT1234567",
          ⟨"9999****7777", "VOT1234567", [1, 0], 0, none⟩)]
        "999988887777" "VOT1234567" "img" 60 "tmp.jpg").2
        (hashQ "999988887777" "VOT1234567")
      = some ⟨"9999****7777", "VOT1234567", [1, 0], 0, none⟩ ∧
    (ah_verify_voter hashQ extractQ embedQ (3/5)
        [(hashQ "999988887777" "VOT1234567", ⟨"123456", 0, true⟩)]
        [(hashQ "999988887777" "VOT1234567",
          ⟨"9999****7777", "VOT1234567", [1, 0], 0, none⟩)]
        "999988887777" "VOT1234567" "img" 60 "tmp.jpg").1
      = VoterVerifyOutcome.result
          (verify_voter_by_face hashQ embedQ (3/5)
            [(hashQ "999988887777" "VOT1234567",
              ⟨"9999****7777", "VOT1234567", [1, 0], 0, none⟩)]
            "999988887777" "VOT1234567" 0).1
          (verify_voter_by_face hashQ embedQ (3/5)
            [(hashQ "999988887777" "VOT1234567",
              ⟨"9999****7777", "VOT1234567", [1, 0], 0, none⟩)]
            "999988887777" "VOT1234567" 0).2 :=
  existing_voter_record_frame hashQ extractQ embedQ (3/5)
    [(hashQ "999988887777" "VOT1234567", ⟨"123456", 0, true⟩)]
    [(hashQ "999988887777" "VOT1234567",
      ⟨"9999****7777", "VOT1234567", [1, 0], 0, none⟩)]
    "999988887777" "VOT1234567" "img" "tmp.jpg" 60
    (by decide) (by decide) (by decide) ⟨"123456", 0, true⟩ (by decide) rfl
    0 rfl ⟨"9999****7777", "VOT1234567", [1, 0], 0, none⟩ (by decide)
